import Mathlib

/-!
Verification of the ecoScraping pipeline (src/ecoScraping.py).

The analysis path is shallowly embedded: a pandas cell value is either a
number, NaN, or a leftover string (`RawCell`); after the cleaning step of
`analyze_financial_data` every cell of the six numeric columns is a float64
value or NaN (`FloatVal`).  Finite float64 values are modelled as exact
rationals (`ℚ`) and the infinite float64 values, which pandas numeric
coercion can produce and which are not NA, are modelled explicitly as
`inf`/`negInf`; division follows float64 semantics on NaN and infinite
operands.  One float64 behaviour is outside the model: a finite/finite
quotient is an exact rational here, so overflow of a division of two finite
values to infinity is not represented.  `%.4f` rounding is modelled as
rounding the rational to four decimal places (the concrete scenario values
are far from any rounding boundary, so the binary-float result rounds
identically).
-/

namespace EcoScraping

/-- A pandas numeric cell after cleaning: a float64 value or NaN.  Finite
values are exact rationals; `inf` and `negInf` are the infinite float64
values, which pandas numeric coercion can produce (e.g. from "inf" or an
out-of-range literal) and which `pd.isna` does not treat as NA. -/
inductive FloatVal where
  | nan : FloatVal
  | num : ℚ → FloatVal
  | inf : FloatVal
  | negInf : FloatVal
deriving DecidableEq

/-- Model of `pd.isna` on a cleaned cell: only NaN is NA; infinities are
not. -/
def FloatVal.isna : FloatVal → Bool
  | .nan => true
  | _ => false

/-- Float64 division as reached after the code's NaN and zero-denominator
guards: NaN propagates, an infinite numerator over a finite denominator
stays infinite with the appropriate sign, a finite numerator over an
infinite denominator gives zero, and a quotient of two infinities is NaN.
A finite/finite quotient is the exact rational, so float64 overflow of such
a quotient to infinity is not represented. -/
def FloatVal.div : FloatVal → FloatVal → FloatVal
  | .num a, .num b => .num (a / b)
  | .num _, .inf => .num 0
  | .num _, .negInf => .num 0
  | .inf, .num b => if b < 0 then FloatVal.negInf else FloatVal.inf
  | .negInf, .num b => if b < 0 then FloatVal.inf else FloatVal.negInf
  | _, _ => .nan

/-- One input row of `input_financials.csv` after column cleaning
(the `FinancialRow` of the data model); field names follow the CSV columns. -/
structure FinancialRow where
  CompanyName : String
  Ticker : String
  Year : Int
  TotalCurrentAssets : FloatVal
  TotalCurrentLiabilities : FloatVal
  TotalDebt : FloatVal
  TotalEquity : FloatVal
  Revenue : FloatVal
  NetIncome : FloatVal
deriving DecidableEq

/-- One output row of `output_ratios.csv` (the `RatioRow` of the data model). -/
structure RatioRow where
  CompanyName : String
  Ticker : String
  Year : Int
  CurrentRatio : FloatVal
  DebtToEquityRatio : FloatVal
  NetProfitMargin : FloatVal
deriving DecidableEq

/-- The `missing_data` flag of `calculate_ratios` (lines 186-191): true when
any of the six required numeric fields of the row is NaN. -/
def missing_data (row : FinancialRow) : Bool :=
  row.TotalCurrentAssets.isna || row.TotalCurrentLiabilities.isna ||
  row.TotalDebt.isna || row.TotalEquity.isna ||
  row.Revenue.isna || row.NetIncome.isna

/-- The body of the per-row loop of `calculate_ratios` (lines 179-233).
Each ratio mirrors the code: NaN if `missing_data` or either operand is NaN,
NaN if the denominator equals zero (logged, no exception), otherwise the
floating-point quotient.  The `try/except TypeError` arms are unreachable
here because cleaned cells are numbers or NaN. -/
def calculate_ratios_row (row : FinancialRow) : RatioRow :=
  { CompanyName := row.CompanyName
    Ticker := row.Ticker
    Year := row.Year
    CurrentRatio :=
      if missing_data row || row.TotalCurrentAssets.isna ||
          row.TotalCurrentLiabilities.isna then FloatVal.nan
      else if row.TotalCurrentLiabilities = FloatVal.num 0 then FloatVal.nan
      else row.TotalCurrentAssets.div row.TotalCurrentLiabilities
    DebtToEquityRatio :=
      if missing_data row || row.TotalDebt.isna || row.TotalEquity.isna then
        FloatVal.nan
      else if row.TotalEquity = FloatVal.num 0 then FloatVal.nan
      else row.TotalDebt.div row.TotalEquity
    NetProfitMargin :=
      if missing_data row || row.NetIncome.isna || row.Revenue.isna then
        FloatVal.nan
      else if row.Revenue = FloatVal.num 0 then FloatVal.nan
      else row.NetIncome.div row.Revenue }

/-- `calculate_ratios` (lines 171-235): iterates the rows in order and
appends exactly one result row per input row. -/
def calculate_ratios (df : List FinancialRow) : List RatioRow :=
  df.map calculate_ratios_row

/-- A raw pandas cell before cleaning: NaN, a number, or a string. -/
inductive RawCell where
  | nan : RawCell
  | num : ℚ → RawCell
  | str : String → RawCell
deriving DecidableEq

/-- `pd.to_numeric(..., errors='coerce')` on one cell, with the numeric
parse of a string abstracted as `parse` (failure yields NaN). -/
def coerce_cell (parse : String → Option ℚ) : RawCell → RawCell
  | .nan => .nan
  | .num q => .num q
  | .str s =>
      match parse s with
      | some q => .num q
      | none => .nan

/-- The replacement of the "-" and "" markers by NaN (line 301) on one cell. -/
def replace_markers : RawCell → RawCell
  | .str s => if s = "-" || s = "" then RawCell.nan else RawCell.str s
  | c => c

/-- `pd.api.types.is_numeric_dtype` for a column: no string cells. -/
def is_numeric_dtype (col : List RawCell) : Bool :=
  col.all fun c =>
    match c with
    | .str _ => false
    | _ => true

/-- The column-cleaning loop of `analyze_financial_data` (lines 287-302) on
one numeric column: coerce unless already numeric, replace the "-" and ""
markers with NaN, then coerce again. -/
def normalize_column (parse : String → Option ℚ) (col : List RawCell) :
    List RawCell :=
  let col1 := if is_numeric_dtype col then col else col.map (coerce_cell parse)
  let col2 := col1.map replace_markers
  col2.map (coerce_cell parse)

/-- The per-cell effect of `normalize_column` on the non-numeric-dtype path;
on the numeric-dtype path every cell is NaN or a number and each step is the
identity, so the two agree (proved below). -/
def normalize_cell (parse : String → Option ℚ) (c : RawCell) : RawCell :=
  coerce_cell parse (replace_markers (coerce_cell parse c))

/-- View of a cleaned cell as a `FloatVal`; a string cell cannot survive
cleaning (the final coercion maps every string to a number or NaN). -/
def toFloatVal : RawCell → FloatVal
  | .nan => FloatVal.nan
  | .num q => FloatVal.num q
  | .str _ => FloatVal.nan

/-- One raw row of the parsed input CSV, before column cleaning. -/
structure RawRow where
  CompanyName : String
  Ticker : String
  Year : Int
  TotalCurrentAssets : RawCell
  TotalCurrentLiabilities : RawCell
  TotalDebt : RawCell
  TotalEquity : RawCell
  Revenue : RawCell
  NetIncome : RawCell
deriving DecidableEq

/-- Cleaning applied to one row: each of the six numeric cells is
normalized; identity columns pass through. -/
def clean_row (parse : String → Option ℚ) (r : RawRow) : FinancialRow :=
  { CompanyName := r.CompanyName
    Ticker := r.Ticker
    Year := r.Year
    TotalCurrentAssets := toFloatVal (normalize_cell parse r.TotalCurrentAssets)
    TotalCurrentLiabilities :=
      toFloatVal (normalize_cell parse r.TotalCurrentLiabilities)
    TotalDebt := toFloatVal (normalize_cell parse r.TotalDebt)
    TotalEquity := toFloatVal (normalize_cell parse r.TotalEquity)
    Revenue := toFloatVal (normalize_cell parse r.Revenue)
    NetIncome := toFloatVal (normalize_cell parse r.NetIncome) }

/-- The parsed input table: the column names pandas saw, and the rows.
When the required-column check passes all nine columns exist, so the rows
are viewed through the fixed fields of `RawRow`; when it fails no row field
is ever read. -/
structure RawTable where
  columns : List String
  rows : List RawRow
deriving DecidableEq

/-- `REQUIRED_COLUMNS` (lines 32-37). -/
def REQUIRED_COLUMNS : List String :=
  ["CompanyName", "Ticker", "Year",
   "TotalCurrentAssets", "TotalCurrentLiabilities",
   "TotalDebt", "TotalEquity",
   "Revenue", "NetIncome"]

/-- `%.4f` write-time formatting of one float, modelled as rounding the
rational to four decimal places. -/
def float_format_4 (q : ℚ) : ℚ := (round (q * 10000) : ℚ) / 10000

/-- Write-time formatting of a ratio cell; NaN and infinities pass
through. -/
def FloatVal.round4 : FloatVal → FloatVal
  | .num q => .num (float_format_4 q)
  | v => v

/-- Write-time formatting of a result row: `to_csv(..., float_format='%.4f')`
formats exactly the three float columns. -/
def RatioRow.round4 (r : RatioRow) : RatioRow :=
  { r with
    CurrentRatio := r.CurrentRatio.round4
    DebtToEquityRatio := r.DebtToEquityRatio.round4
    NetProfitMargin := r.NetProfitMargin.round4 }

/-- Observable outcome of `analyze_financial_data`: the returned Bool, the
content written to the output file (`none` when the file is not touched),
and how many rows the ratio loop iterated. -/
structure AnalyzeResult where
  success : Bool
  outputWritten : Option (List RatioRow)
  rowsProcessed : Nat
deriving DecidableEq

/-- `analyze_financial_data` (lines 238-331) after the read step: `none`
stands for any load failure (missing file, parse error, empty file), which
returns False with nothing written.  On a loaded table: the empty check
(line 246) runs first and returns True writing nothing; the missing-column
check (lines 273-277) runs next and returns False writing nothing; otherwise
the numeric columns are cleaned, ratios are computed, and the output file is
fully overwritten with the 4-decimal-formatted rows. -/
def analyze_financial_data (parse : String → Option ℚ)
    (loaded : Option RawTable) : AnalyzeResult :=
  match loaded with
  | none => ⟨false, none, 0⟩
  | some df =>
      if df.rows.isEmpty then ⟨true, none, 0⟩
      else
        let missing_cols :=
          REQUIRED_COLUMNS.filter fun c => ¬ df.columns.contains c
        if ¬ missing_cols.isEmpty then ⟨false, none, 0⟩
        else
          let cleaned := df.rows.map (clean_row parse)
          let ratios_df := calculate_ratios cleaned
          ⟨true, some (ratios_df.map RatioRow.round4), cleaned.length⟩

/-- The exit-code logic of `main` (lines 414-422): a phase that was run and
failed forces exit code 1, otherwise 0. -/
def exit_code (skip_acquisition skip_analysis : Bool)
    (acquisition_success analysis_success : Bool) : Nat :=
  if (!skip_acquisition && !acquisition_success) ||
      (!skip_analysis && !analysis_success) then 1 else 0

/-- The per-company metrics file header, per spec §6. -/
def METRICS_HEADER : String := "Metric, Value, Source URL"

/-- Modelled from the spec: the RecordStore append of the scraper variants is
absent from src/ (only the analysis script is present).  Per §4.4 and §8, a
per-company metrics file (`none` = not yet existing) gets the header exactly
once, on first-ever write detected by file existence, and every later append
only adds rows at the end. -/
def record_store_append : Option (List String) → List String →
    Option (List String)
  | none, rows => some (METRICS_HEADER :: rows)
  | some ls, rows => some (ls ++ rows)

/-- `USER_AGENT` (line 21). -/
def USER_AGENT : String := "Freddy Charles freddycharles04@gmail.com"

/-- The whitespace characters removed by Python `str.strip()` (restricted
to the ASCII ones; the identifiers file holds ASCII tickers). -/
def is_python_space (c : Char) : Bool :=
  c = ' ' || c = '\t' || c = '\n' || c = '\x0b' || c = '\x0c' || c = '\r'

/-- Python `str.strip()`: drop whitespace from both ends. -/
def python_strip (s : String) : String :=
  String.mk (((s.data.dropWhile is_python_space).reverse.dropWhile
    is_python_space).reverse)

/-- Outcome of one `dl.get` call in `acquire_filings`: a returned filing
count, or one of the caught exception classes (lines 137-155). -/
inductive DownloadOutcome where
  | count : Nat → DownloadOutcome
  | requestException : DownloadOutcome
  | valueError : DownloadOutcome
  | otherException : DownloadOutcome
deriving DecidableEq

/-- The three counters of `acquire_filings` (lines 96-98). -/
structure AcqState where
  successful : Nat
  failed : Nat
  totalFiles : Nat
deriving DecidableEq

/-- One iteration of the identifier loop of `acquire_filings` (lines
100-155): strip, skip blanks, call the downloader on the stripped
identifier; any exception is caught, counted as a failure, and the loop
continues with the next identifier. -/
def process_identifier (out : String → DownloadOutcome) (s : AcqState)
    (ident : String) : AcqState :=
  let stripped := python_strip ident
  if stripped = "" then s
  else
    match out stripped with
    | DownloadOutcome.count n =>
        if n > 0 then ⟨s.successful + 1, s.failed, s.totalFiles + n⟩ else s
    | _ => ⟨s.successful, s.failed + 1, s.totalFiles⟩

/-- `acquire_filings` (lines 72-167) with downloader initialization assumed
to succeed and the per-identifier download outcome abstracted as `out`.
Returns `failed_downloads < len([id for id in identifiers if id])`: note the
denominator counts identifiers that are non-empty before stripping. -/
def acquire_filings (out : String → DownloadOutcome) (user_agent : String)
    (identifiers : List String) : Bool :=
  if user_agent = "" || user_agent = "Your Name Your Email" then false
  else
    let final := identifiers.foldl (process_identifier out) ⟨0, 0, 0⟩
    decide (final.failed <
      (identifiers.filter fun id => ¬ id = "").length)

/-- An identifier the loop counts as failed: non-blank after stripping and
its download raises one of the caught exceptions. -/
def identifier_fails (out : String → DownloadOutcome) (ident : String) :
    Bool :=
  !(python_strip ident == "") &&
    (match out (python_strip ident) with
     | DownloadOutcome.count _ => false
     | _ => true)

/-- A row whose TotalCurrentAssets cell is the float64 infinity (as pandas
produces for "inf" or an out-of-range literal) while every other field is a
finite number: `pd.isna` is False on every field and no denominator is
zero, so both guards pass and the division runs on an infinite operand. -/
def c2infrow : FinancialRow :=
  ⟨"InfCo", "INF", 2023, FloatVal.inf, FloatVal.num 1, FloatVal.num 1,
   FloatVal.num 1, FloatVal.num 1, FloatVal.num 1⟩

/-- A row whose two CurrentRatio operands are plain numbers with a nonzero
denominator while an unrelated field (NetIncome) is NaN. -/
def c3row : FinancialRow :=
  ⟨"ExampleCo", "EXM", 2023, FloatVal.num 100, FloatVal.num 50,
   FloatVal.num 10, FloatVal.num 5, FloatVal.num 100, FloatVal.nan⟩

/-- The scenario row of spec §8 (the first dummy-data row, lines 446-456). -/
def c4row : FinancialRow :=
  ⟨"Apple Inc.", "AAPL", 2023, FloatVal.num 143566, FloatVal.num 145308,
   FloatVal.num 111088, FloatVal.num 62146, FloatVal.num 383285,
   FloatVal.num 96995⟩

/-- A parsed table with a header but zero data rows, missing most required
columns. -/
def c6table : RawTable := ⟨["CompanyName"], []⟩

/-- A raw row with every cell present, used to build concrete tables. -/
def sampleRawRow : RawRow :=
  ⟨"SampleCo", "SMP", 2022, RawCell.num 10, RawCell.num 4, RawCell.num 3,
   RawCell.num 2, RawCell.num 20, RawCell.num 5⟩

theorem calculate_ratios_getElem (df : List FinancialRow) (i : Nat) :
    (calculate_ratios df)[i]? = (df[i]?).map calculate_ratios_row := by
  simp [calculate_ratios]

theorem missing_data_of_nan_field (row : FinancialRow)
    (hmiss : row.TotalCurrentAssets = FloatVal.nan ∨
      row.TotalCurrentLiabilities = FloatVal.nan ∨
      row.TotalDebt = FloatVal.nan ∨ row.TotalEquity = FloatVal.nan ∨
      row.Revenue = FloatVal.nan ∨ row.NetIncome = FloatVal.nan) :
    missing_data row = true := by
  rcases hmiss with h | h | h | h | h | h <;>
    simp [missing_data, h, FloatVal.isna]

/-- Claim C1: for every input row in which any of the six required numeric
fields is NaN, `calculate_ratios` produces NaN for all three ratios of that
row. -/
theorem c1_missing_field_all_ratios_nan (df : List FinancialRow) (i : Nat)
    (row : FinancialRow) (hrow : df[i]? = some row)
    (hmiss : row.TotalCurrentAssets = FloatVal.nan ∨
      row.TotalCurrentLiabilities = FloatVal.nan ∨
      row.TotalDebt = FloatVal.nan ∨ row.TotalEquity = FloatVal.nan ∨
      row.Revenue = FloatVal.nan ∨ row.NetIncome = FloatVal.nan) :
    (calculate_ratios df)[i]? = some (calculate_ratios_row row) ∧
    (calculate_ratios_row row).CurrentRatio = FloatVal.nan ∧
    (calculate_ratios_row row).DebtToEquityRatio = FloatVal.nan ∧
    (calculate_ratios_row row).NetProfitMargin = FloatVal.nan := by
  have hmd := missing_data_of_nan_field row hmiss
  refine ⟨?_, ?_, ?_, ?_⟩
  · rw [calculate_ratios_getElem, hrow]
    exact rfl
  all_goals simp [calculate_ratios_row, hmd]

/-- Witness for C1 on a concrete one-row table with NaN Revenue. -/
theorem c1_missing_field_all_ratios_nan_witness :
    (calculate_ratios [⟨"W", "W", 2020, FloatVal.num 1, FloatVal.num 2,
        FloatVal.num 3, FloatVal.num 4, FloatVal.nan, FloatVal.num 5⟩])[0]? =
      some (calculate_ratios_row ⟨"W", "W", 2020, FloatVal.num 1,
        FloatVal.num 2, FloatVal.num 3, FloatVal.num 4, FloatVal.nan,
        FloatVal.num 5⟩) ∧
    (calculate_ratios_row ⟨"W", "W", 2020, FloatVal.num 1, FloatVal.num 2,
        FloatVal.num 3, FloatVal.num 4, FloatVal.nan,
        FloatVal.num 5⟩).CurrentRatio = FloatVal.nan ∧
    (calculate_ratios_row ⟨"W", "W", 2020, FloatVal.num 1, FloatVal.num 2,
        FloatVal.num 3, FloatVal.num 4, FloatVal.nan,
        FloatVal.num 5⟩).DebtToEquityRatio = FloatVal.nan ∧
    (calculate_ratios_row ⟨"W", "W", 2020, FloatVal.num 1, FloatVal.num 2,
        FloatVal.num 3, FloatVal.num 4, FloatVal.nan,
        FloatVal.num 5⟩).NetProfitMargin = FloatVal.nan :=
  c1_missing_field_all_ratios_nan _ 0 _ rfl
    (Or.inr (Or.inr (Or.inr (Or.inr (Or.inl rfl)))))

/-- Counterexample to C2 as stated: an infinite TotalCurrentAssets cell
(pandas numeric coercion produces float64 infinity, which is not NA) passes
the NaN guard and the nonzero denominator passes the zero guard, so the
code returns an infinite CurrentRatio — the claim's "never returns an
infinite value for any row" is false. -/
theorem c2_counterexample :
    c2infrow.TotalCurrentAssets.isna = false ∧
    c2infrow.TotalCurrentLiabilities = FloatVal.num 1 ∧
    (calculate_ratios_row c2infrow).CurrentRatio = FloatVal.inf := by
  refine ⟨rfl, rfl, ?_⟩
  simp [calculate_ratios_row, c2infrow, missing_data, FloatVal.isna,
    FloatVal.div]

/-- Claim C2 amended: a ratio whose denominator is exactly zero is NaN (no
exception is raised: the zero check runs before the division, and the model
is a total function); the zero-denominator guard does not make every ratio
finite, because an infinite operand passes both guards and yields an
infinite quotient. -/
theorem c2_amended_zero_denominator_nan (row : FinancialRow) :
    (row.TotalCurrentLiabilities = FloatVal.num 0 →
      (calculate_ratios_row row).CurrentRatio = FloatVal.nan) ∧
    (row.TotalEquity = FloatVal.num 0 →
      (calculate_ratios_row row).DebtToEquityRatio = FloatVal.nan) ∧
    (row.Revenue = FloatVal.num 0 →
      (calculate_ratios_row row).NetProfitMargin = FloatVal.nan) := by
  refine ⟨fun h => ?_, fun h => ?_, fun h => ?_⟩ <;>
    simp [calculate_ratios_row, h, FloatVal.isna]

/-- Witness for the amended C2 on a concrete row whose three denominators
are all exactly zero. -/
theorem c2_amended_zero_denominator_nan_witness :
    (calculate_ratios_row ⟨"Z", "Z", 2020, FloatVal.num 100, FloatVal.num 0,
        FloatVal.num 1, FloatVal.num 0, FloatVal.num 0,
        FloatVal.num 1⟩).CurrentRatio = FloatVal.nan ∧
    (calculate_ratios_row ⟨"Z", "Z", 2020, FloatVal.num 100, FloatVal.num 0,
        FloatVal.num 1, FloatVal.num 0, FloatVal.num 0,
        FloatVal.num 1⟩).DebtToEquityRatio = FloatVal.nan ∧
    (calculate_ratios_row ⟨"Z", "Z", 2020, FloatVal.num 100, FloatVal.num 0,
        FloatVal.num 1, FloatVal.num 0, FloatVal.num 0,
        FloatVal.num 1⟩).NetProfitMargin = FloatVal.nan :=
  ⟨(c2_amended_zero_denominator_nan _).1 rfl,
   (c2_amended_zero_denominator_nan _).2.1 rfl,
   (c2_amended_zero_denominator_nan _).2.2 rfl⟩

/-- Claim C9: `calculate_ratios` is stateless across rows: one output row
per input row in input order, the output row at `i` is a function of the
input row at `i` alone, and two tables agreeing at `i` produce the same
output row at `i`. -/
theorem c9_stateless_rowwise (df1 df2 : List FinancialRow) (i : Nat)
    (r : FinancialRow) (h1 : df1[i]? = some r) (h2 : df2[i]? = some r) :
    (calculate_ratios df1).length = df1.length ∧
    (calculate_ratios df1)[i]? = some (calculate_ratios_row r) ∧
    (calculate_ratios df1)[i]? = (calculate_ratios df2)[i]? := by
  refine ⟨by simp [calculate_ratios], ?_, ?_⟩ <;>
    rw [calculate_ratios_getElem, h1] <;>
    first
      | rfl
      | rw [calculate_ratios_getElem, h2]

/-- Witness for C9 on two concrete tables agreeing at index 1. -/
theorem c9_stateless_rowwise_witness :
    (calculate_ratios [⟨"A", "A", 2020, FloatVal.num 1, FloatVal.num 2,
        FloatVal.num 3, FloatVal.num 4, FloatVal.num 5, FloatVal.num 6⟩,
      c4row]).length = 2 ∧
    (calculate_ratios [⟨"A", "A", 2020, FloatVal.num 1, FloatVal.num 2,
        FloatVal.num 3, FloatVal.num 4, FloatVal.num 5, FloatVal.num 6⟩,
      c4row])[1]? = some (calculate_ratios_row c4row) ∧
    (calculate_ratios [⟨"A", "A", 2020, FloatVal.num 1, FloatVal.num 2,
        FloatVal.num 3, FloatVal.num 4, FloatVal.num 5, FloatVal.num 6⟩,
      c4row])[1]? = (calculate_ratios [c3row, c4row])[1]? :=
  c9_stateless_rowwise _ _ 1 c4row rfl rfl

/-- Claim C10: a successfully parsed table with zero rows makes
`analyze_financial_data` return success without processing any row and
without touching the output file. -/
theorem c10_empty_table_success_no_output (parse : String → Option ℚ)
    (df : RawTable) (h : df.rows = []) :
    analyze_financial_data parse (some df) = ⟨true, none, 0⟩ := by
  simp [analyze_financial_data, h]

/-- Witness for C10 on a concrete zero-row table with all columns present. -/
theorem c10_empty_table_success_no_output_witness :
    analyze_financial_data (fun _ => none) (some ⟨REQUIRED_COLUMNS, []⟩) =
      ⟨true, none, 0⟩ :=
  c10_empty_table_success_no_output _ _ rfl

/-- Counterexample to C3 as stated: in `c3row` both CurrentRatio operands
are plain numbers and the denominator is nonzero, yet the NaN in the
unrelated NetIncome field makes the code return NaN instead of the quotient,
because the row-wide `missing_data` flag is checked for every ratio. -/
theorem c3_counterexample :
    c3row.TotalCurrentAssets = FloatVal.num 100 ∧
    c3row.TotalCurrentLiabilities = FloatVal.num 50 ∧
    ¬ (100 : ℚ) = 0 ∧
    c3row.NetIncome = FloatVal.nan ∧
    ¬ (calculate_ratios_row c3row).CurrentRatio =
        FloatVal.num ((100 : ℚ) / 50) ∧
    (calculate_ratios_row c3row).CurrentRatio = FloatVal.nan := by
  refine ⟨rfl, rfl, by norm_num, rfl, ?_, ?_⟩ <;>
    simp [calculate_ratios_row, c3row, missing_data, FloatVal.isna]

/-- Claim C3 amended: the quotient is returned for a ratio only when, in
addition to its own operands being non-NaN and its denominator nonzero, no
other required numeric field of the row is NaN (the code applies the
row-wide `missing_data` check to every ratio). -/
theorem c3_amended_all_present_quotient (row : FinancialRow)
    (h : missing_data row = false) :
    (∀ a b : ℚ, row.TotalCurrentAssets = FloatVal.num a →
      row.TotalCurrentLiabilities = FloatVal.num b → ¬ b = 0 →
      (calculate_ratios_row row).CurrentRatio = FloatVal.num (a / b)) ∧
    (∀ a b : ℚ, row.TotalDebt = FloatVal.num a →
      row.TotalEquity = FloatVal.num b → ¬ b = 0 →
      (calculate_ratios_row row).DebtToEquityRatio = FloatVal.num (a / b)) ∧
    (∀ a b : ℚ, row.NetIncome = FloatVal.num a →
      row.Revenue = FloatVal.num b → ¬ b = 0 →
      (calculate_ratios_row row).NetProfitMargin = FloatVal.num (a / b)) := by
  refine ⟨fun a b ha hb hb0 => ?_, fun a b ha hb hb0 => ?_,
    fun a b ha hb hb0 => ?_⟩ <;>
    simp [calculate_ratios_row, h, ha, hb, hb0, FloatVal.isna, FloatVal.div]

/-- Witness for the amended C3 on a concrete fully-populated row. -/
theorem c3_amended_all_present_quotient_witness :
    (calculate_ratios_row ⟨"V", "V", 2021, FloatVal.num 6, FloatVal.num 3,
        FloatVal.num 8, FloatVal.num 4, FloatVal.num 10,
        FloatVal.num 5⟩).CurrentRatio = FloatVal.num ((6 : ℚ) / 3) ∧
    (calculate_ratios_row ⟨"V", "V", 2021, FloatVal.num 6, FloatVal.num 3,
        FloatVal.num 8, FloatVal.num 4, FloatVal.num 10,
        FloatVal.num 5⟩).DebtToEquityRatio = FloatVal.num ((8 : ℚ) / 4) ∧
    (calculate_ratios_row ⟨"V", "V", 2021, FloatVal.num 6, FloatVal.num 3,
        FloatVal.num 8, FloatVal.num 4, FloatVal.num 10,
        FloatVal.num 5⟩).NetProfitMargin = FloatVal.num ((5 : ℚ) / 10) :=
  ⟨(c3_amended_all_present_quotient ⟨"V", "V", 2021, FloatVal.num 6,
      FloatVal.num 3, FloatVal.num 8, FloatVal.num 4, FloatVal.num 10,
      FloatVal.num 5⟩ rfl).1 6 3 rfl rfl (by norm_num),
   (c3_amended_all_present_quotient ⟨"V", "V", 2021, FloatVal.num 6,
      FloatVal.num 3, FloatVal.num 8, FloatVal.num 4, FloatVal.num 10,
      FloatVal.num 5⟩ rfl).2.1 8 4 rfl rfl (by norm_num),
   (c3_amended_all_present_quotient ⟨"V", "V", 2021, FloatVal.num 6,
      FloatVal.num 3, FloatVal.num 8, FloatVal.num 4, FloatVal.num 10,
      FloatVal.num 5⟩ rfl).2.2 5 10 rfl rfl (by norm_num)⟩

/-- Counterexample to C4 as stated: the third quotient 96995/383285 is about
0.253062, which `%.4f` rounds to 0.2531, not to the 0.2530 the claim
names. -/
theorem c4_counterexample :
    ¬ (RatioRow.round4 (calculate_ratios_row c4row)).NetProfitMargin =
        FloatVal.num ((2530 : ℚ) / 10000) := by
  have hv : (calculate_ratios_row c4row).NetProfitMargin =
      FloatVal.num ((96995 : ℚ) / 383285) := by
    simp [calculate_ratios_row, c4row, missing_data, FloatVal.isna,
      FloatVal.div]
  simp only [RatioRow.round4, hv, FloatVal.round4, float_format_4]
  norm_num [round_eq]

/-- Claim C4 amended: on the scenario row the computed ratios are the exact
quotients 143566/145308, 111088/62146 and 96995/383285, which the 4-decimal
write-time formatting rounds to 0.9880, 1.7875 and 0.2531. -/
theorem c4_amended_scenario :
    calculate_ratios [c4row] = [⟨"Apple Inc.", "AAPL", 2023,
      FloatVal.num ((143566 : ℚ) / 145308),
      FloatVal.num ((111088 : ℚ) / 62146),
      FloatVal.num ((96995 : ℚ) / 383285)⟩] ∧
    (calculate_ratios [c4row]).map RatioRow.round4 =
      [⟨"Apple Inc.", "AAPL", 2023,
        FloatVal.num ((9880 : ℚ) / 10000),
        FloatVal.num ((17875 : ℚ) / 10000),
        FloatVal.num ((2531 : ℚ) / 10000)⟩] := by
  have hrow : calculate_ratios_row c4row = ⟨"Apple Inc.", "AAPL", 2023,
      FloatVal.num ((143566 : ℚ) / 145308),
      FloatVal.num ((111088 : ℚ) / 62146),
      FloatVal.num ((96995 : ℚ) / 383285)⟩ := by
    simp [calculate_ratios_row, c4row, missing_data, FloatVal.isna,
      FloatVal.div]
  refine ⟨by simp [calculate_ratios, hrow], ?_⟩
  simp only [calculate_ratios, List.map_cons, List.map_nil, hrow,
    RatioRow.round4, FloatVal.round4, float_format_4]
  norm_num [round_eq]

theorem normalize_cell_nan_or_num (parse : String → Option ℚ)
    (c : RawCell) :
    normalize_cell parse c = RawCell.nan ∨
      ∃ q, normalize_cell parse c = RawCell.num q := by
  cases c with
  | nan => exact Or.inl rfl
  | num q => exact Or.inr ⟨q, rfl⟩
  | str s =>
      cases h : parse s with
      | none =>
          exact Or.inl (by simp [normalize_cell, coerce_cell, h,
            replace_markers])
      | some q =>
          exact Or.inr ⟨q, by simp [normalize_cell, coerce_cell, h,
            replace_markers]⟩

theorem normalize_column_eq_map (parse : String → Option ℚ)
    (col : List RawCell) :
    normalize_column parse col = col.map (normalize_cell parse) := by
  unfold normalize_column
  by_cases h : is_numeric_dtype col = true
  · simp only [h, if_true, List.map_map]
    refine List.map_congr_left fun c hc => ?_
    have hnum := (List.all_eq_true.mp h) c hc
    cases c with
    | nan => rfl
    | num q => rfl
    | str s => simp at hnum
  · have h2 : is_numeric_dtype col = false := by
      cases hb : is_numeric_dtype col
      · rfl
      · exact absurd hb h
    rw [h2]
    simp only [Bool.false_eq_true, if_false, List.map_map]
    rfl

/-- Claim C5: after the column cleaning of `analyze_financial_data`, every
cell of a required numeric column is a number or NaN, and a cell holding the
textual marker "-" or "" ends up NaN (the hypotheses record that pandas
numeric coercion does not parse those markers). -/
theorem c5_normalized_cells_numeric_or_nan (parse : String → Option ℚ)
    (hdash : parse "-" = none) (hblank : parse "" = none)
    (col : List RawCell) :
    (∀ x ∈ normalize_column parse col,
        x = RawCell.nan ∨ ∃ q, x = RawCell.num q) ∧
    (∀ i : Nat,
      (col[i]? = some (RawCell.str "-") ∨ col[i]? = some (RawCell.str "")) →
      (normalize_column parse col)[i]? = some RawCell.nan) := by
  rw [normalize_column_eq_map]
  constructor
  · intro x hx
    obtain ⟨c, _, rfl⟩ := List.mem_map.mp hx
    exact normalize_cell_nan_or_num parse c
  · intro i hi
    rcases hi with hi | hi <;>
      simp [List.getElem?_map, hi, normalize_cell, coerce_cell, hdash,
        hblank, replace_markers]

/-- Witness for C5 on a concrete column with a parse that rejects every
string. -/
theorem c5_normalized_cells_numeric_or_nan_witness :
    (∀ x ∈ normalize_column (fun _ => none)
        [RawCell.str "-", RawCell.num 3, RawCell.str "", RawCell.str "abc",
         RawCell.nan],
      x = RawCell.nan ∨ ∃ q, x = RawCell.num q) ∧
    (∀ i : Nat,
      (([RawCell.str "-", RawCell.num 3, RawCell.str "", RawCell.str "abc",
          RawCell.nan] : List RawCell)[i]? = some (RawCell.str "-") ∨
        ([RawCell.str "-", RawCell.num 3, RawCell.str "", RawCell.str "abc",
          RawCell.nan] : List RawCell)[i]? = some (RawCell.str "")) →
      (normalize_column (fun _ => none)
        [RawCell.str "-", RawCell.num 3, RawCell.str "", RawCell.str "abc",
         RawCell.nan])[i]? = some RawCell.nan) :=
  c5_normalized_cells_numeric_or_nan (fun _ => none) rfl rfl _

/-- Counterexample to C6 as stated: a parsed table with a header but zero
rows that is missing required columns makes `analyze_financial_data` return
success, because the empty check runs before the missing-column check. -/
theorem c6_counterexample :
    "Ticker" ∈ REQUIRED_COLUMNS ∧
    ¬ "Ticker" ∈ c6table.columns ∧
    (analyze_financial_data (fun _ => none) (some c6table)).success =
      true := by
  refine ⟨by decide, by decide, rfl⟩

/-- Claim C6 amended: for every parsed table with at least one row that is
missing a required column, `analyze_financial_data` fails before processing
any row and without touching the output file, and `main` then exits with
code 1. -/
theorem c6_missing_column_fatal (parse : String → Option ℚ) (df : RawTable)
    (hne : ¬ df.rows = []) (c : String) (hc : c ∈ REQUIRED_COLUMNS)
    (hmiss : ¬ c ∈ df.columns) :
    analyze_financial_data parse (some df) = ⟨false, none, 0⟩ ∧
    (∀ skip_acq acq_ok : Bool,
      exit_code skip_acq false acq_ok
        (analyze_financial_data parse (some df)).success = 1) := by
  have hrows : df.rows.isEmpty = false := by
    simpa [List.isEmpty_iff] using hne
  have hres : analyze_financial_data parse (some df) = ⟨false, none, 0⟩ := by
    simp [analyze_financial_data, hrows]
    exact ⟨c, hc, hmiss⟩
  exact ⟨hres, fun skip_acq acq_ok => by simp [hres, exit_code]⟩

/-- Witness for the amended C6 on a concrete one-row table missing the Year
column. -/
theorem c6_missing_column_fatal_witness :
    analyze_financial_data (fun _ => none)
      (some ⟨["CompanyName", "Ticker"], [sampleRawRow]⟩) =
      ⟨false, none, 0⟩ ∧
    (∀ skip_acq acq_ok : Bool,
      exit_code skip_acq false acq_ok
        (analyze_financial_data (fun _ => none)
          (some ⟨["CompanyName", "Ticker"], [sampleRawRow]⟩)).success = 1) :=
  c6_missing_column_fatal (fun _ => none)
    ⟨["CompanyName", "Ticker"], [sampleRawRow]⟩ (by simp) "Year"
    (by decide) (by decide)

theorem record_store_foldl_some (appends : List (List String))
    (acc : List String) :
    List.foldl record_store_append (some acc) appends =
      some (acc ++ appends.flatten) := by
  induction appends generalizing acc with
  | nil => simp
  | cons a rest ih =>
      simp [List.foldl_cons, record_store_append, ih]

/-- Claim C7 (RecordStore modelled from the spec): appending metric rows N
times, with header-on-first-write detected by file existence, yields exactly
one header line followed by the concatenation of all appended row sets; no
prior row is ever lost. -/
theorem c7_header_once_append_only (appends : List (List String))
    (hne : ¬ appends = []) :
    List.foldl record_store_append none appends =
      some (METRICS_HEADER :: appends.flatten) := by
  cases appends with
  | nil => exact absurd rfl hne
  | cons a rest =>
      have h1 : record_store_append none a = some (METRICS_HEADER :: a) :=
        rfl
      rw [List.foldl_cons, h1, record_store_foldl_some]
      simp

/-- Witness for C7: the spec §8 scenario of two appends of three rows each,
giving one header line plus six data lines. -/
theorem c7_header_once_append_only_witness :
    List.foldl record_store_append none
      [["r1", "r2", "r3"], ["r4", "r5", "r6"]] =
      some [METRICS_HEADER, "r1", "r2", "r3", "r4", "r5", "r6"] := by
  have h := c7_header_once_append_only
    [["r1", "r2", "r3"], ["r4", "r5", "r6"]] (by simp)
  simpa using h

theorem acquire_foldl_failed (out : String → DownloadOutcome)
    (ids : List String) (s : AcqState) :
    (ids.foldl (process_identifier out) s).failed =
      s.failed + ids.countP (identifier_fails out) := by
  induction ids generalizing s with
  | nil => simp
  | cons a rest ih =>
      rw [List.foldl_cons, ih, List.countP_cons]
      by_cases h : python_strip a = ""
      · simp [process_identifier, identifier_fails, h]
      · cases hout : out (python_strip a) with
        | count n =>
            by_cases hn : n > 0 <;>
              simp [process_identifier, identifier_fails, h, hout, hn]
        | requestException =>
            simp [process_identifier, identifier_fails, h, hout]
            omega
        | valueError =>
            simp [process_identifier, identifier_fails, h, hout]
            omega
        | otherException =>
            simp [process_identifier, identifier_fails, h, hout]
            omega

/-- Claim C8: with the configured user agent, `acquire_filings` on a
non-empty identifier list succeeds exactly when the number of failing
identifiers (non-blank after stripping, download raised) is strictly below
the number of non-empty identifiers; every identifier's outcome is counted,
so a caught exception never stops the remaining identifiers from being
attempted. -/
theorem c8_success_iff_not_all_failed (out : String → DownloadOutcome)
    (ids : List String) (_hne : ¬ ids = []) :
    acquire_filings out USER_AGENT ids = true ↔
      ids.countP (identifier_fails out) <
        (ids.filter fun id => ¬ id = "").length := by
  have hfold := acquire_foldl_failed out ids ⟨0, 0, 0⟩
  rw [acquire_filings, if_neg (by decide)]
  simp only [hfold, Nat.zero_add, decide_eq_true_eq]

/-- Witness for C8: one succeeding, one failing, and one empty identifier;
one failure out of two non-empty identifiers still counts as success. -/
theorem c8_success_iff_not_all_failed_witness :
    acquire_filings
      (fun s => if s = "BAD" then DownloadOutcome.requestException
        else DownloadOutcome.count 1)
      USER_AGENT ["AAPL", "BAD", ""] = true :=
  (c8_success_iff_not_all_failed
    (fun s => if s = "BAD" then DownloadOutcome.requestException
      else DownloadOutcome.count 1)
    ["AAPL", "BAD", ""] (by simp)).mpr (by decide)

end EcoScraping
